import Mathlib

/-
Shallow embedding of the balance-hub front-end's data-orchestration core:
the typed REST client (src/lib/api.ts) and the view-state orchestrator
(src/App.tsx).  Conventions used throughout:

* Money values travel as decimal strings in the real client and are only
  ever used numerically through JavaScript `Number(...)`; they are modelled
  here as exact rationals (`Rat`).
* An `async` handler is modelled as a pure state transition
  `AppState → outcomes → AppState`, where each network call's result is an
  explicit `Except ThrownError _` parameter (`.ok` = the promise resolved,
  `.error` = it rejected with the given thrown value).
* JavaScript string truthiness (`if (!x)`) on a string is `x = ""`.
-/

namespace BalanceHub

/-! ## REST client (src/lib/api.ts, full version in unnamed part_002) -/

/-- JavaScript `String.prototype.trim`: strip whitespace from both ends.
Implemented structurally so that proofs and `decide` can evaluate it. -/
def jsTrim (s : String) : String :=
  String.mk (((s.data.dropWhile Char.isWhitespace).reverse.dropWhile Char.isWhitespace).reverse)

/-- Outcome of `await response.json()` on an error body, restricted to the
single field the client reads.  `notJson` covers an empty or malformed body
(the `response.json()` call throws and the client's `catch` swallows it);
`jsonWithMessage m` is a parsed body whose `message` field is the string `m`
(`typeof apiError.message === "string"`); `jsonOther` is any parsed body
without a string `message` field. -/
inductive ErrorBody where
  | notJson
  | jsonWithMessage (m : String)
  | jsonOther
deriving DecidableEq, Repr

/-- The single typed error shape thrown by the client (`class ApiClientError
extends Error`). -/
structure ApiClientError where
  message : String
  status : Nat
deriving DecidableEq, Repr

/-- `Response.ok` of the Fetch API: status in the range 200..299. -/
def responseOk (status : Nat) : Bool :=
  decide (200 ≤ status) && decide (status < 300)

/-- The error-message computation of `request` in api.ts: start from the
generic `HTTP <status>` text and replace it with the body's `message` field
exactly when the body parses as JSON and that field is a string whose
trimmed form is non-empty. -/
def requestErrorMessage (status : Nat) (body : ErrorBody) : String :=
  match body with
  | .jsonWithMessage m =>
      if 0 < (jsTrim m).length then m else "HTTP " ++ toString status
  | _ => "HTTP " ++ toString status

/-- Result of one `request`/`requestBlob` round trip: either the parsed
value (`none` models the 204 empty-body resolution) or the one typed
failure. -/
inductive RequestOutcome (T : Type) where
  | success (value : Option T)
  | apiFailure (e : ApiClientError)
deriving DecidableEq, Repr

/-- `request` of api.ts as a function of the response: `status` is the HTTP
status, `errorBody` the JSON-parse outcome of the body on the error path,
and `parsedBody` the typed value the body parses to on the success path. -/
def request {T : Type} (status : Nat) (errorBody : ErrorBody) (parsedBody : T) :
    RequestOutcome T :=
  if responseOk status then
    if status = 204 then .success none
    else .success (some parsedBody)
  else
    .apiFailure ⟨requestErrorMessage status errorBody, status⟩

/-- `requestBlob` of api.ts: on a non-2xx response it throws
`ApiClientError` with the generic message only — it never reads the body. -/
def requestBlob {B : Type} (status : Nat) (blob : B) : RequestOutcome B :=
  if responseOk status then .success (some blob)
  else .apiFailure ⟨"HTTP " ++ toString status, status⟩

/-- The endpoints exposed by the `api` object. -/
inductive Endpoint where
  | listDebtors
  | createDebtor
  | createSalary
  | createSavingsGoal
  | getMonthlyFreeAmount
  | getSalarySnapshot
  | payMonthlySalary
  | downloadMonthlySummaryPdf
  | createRecurringExpense
  | listRecurringExpenses
  | getRecurringExpenseTotal
  | updateRecurringExpense
  | deleteRecurringExpense
  | createDebt
  | deleteDebt
  | getDebtDetail
  | payInstallment
  | getUnpaidInstallmentsByMonth
deriving DecidableEq, Repr

/-- In api.ts every endpoint routes through `request` except the binary
report endpoint `downloadMonthlySummaryPdf`, which routes through
`requestBlob`. -/
def usesBlobRequest : Endpoint → Bool
  | .downloadMonthlySummaryPdf => true
  | _ => false

/-- The failure behaviour of one endpoint call, as a function of the
response status and error body.  The carried success value is irrelevant to
the error path and fixed to `Unit`. -/
def endpointOutcome (e : Endpoint) (status : Nat) (body : ErrorBody) :
    RequestOutcome Unit :=
  if usesBlobRequest e then requestBlob status () else request status body ()

/-! ## Data model (src/types.ts) -/

/-- Expense classification, `type ExpenseType = "FIXED" | "OPTIONAL"`. -/
inductive ExpenseType where
  | FIXED
  | OPTIONAL
deriving DecidableEq, Repr

/-- A debtor row as returned by `GET /api/debtors`. -/
structure Debtor where
  id : String
  name : String
  email : String
  totalDebt : Rat
deriving DecidableEq, Repr

/-- A recurring expense row. -/
structure RecurringExpense where
  id : String
  description : String
  amount : Rat
deriving DecidableEq, Repr

/-- One installment of a debt. -/
structure Installment where
  id : String
  number : Nat
  dueDate : String
  paidAt : Option String
  amount : Rat
deriving DecidableEq, Repr

/-- A debt with its installment schedule. -/
structure Debt where
  id : String
  description : String
  totalAmount : Rat
  createdAt : String
  settled : Bool
  installments : List Installment
deriving DecidableEq, Repr

/-- Response of `GET /api/debts/{id}` (debtor header plus the debt). -/
structure GetDebtDetailResponse where
  id : String
  name : String
  email : String
  debt : Debt
deriving DecidableEq, Repr

/-- One row of `GET /api/installments/unpaid`. -/
structure UnpaidInstallmentByMonthItem where
  installmentId : String
  debtId : String
  debtDescription : String
  installmentNumber : Nat
  totalInstallments : Nat
  dueDate : String
  amount : Rat
  paid : Bool
  paidAt : Option String
deriving DecidableEq, Repr

/-- Response of `GET /api/installments/unpaid?debtorId&year&month`. -/
structure GetUnpaidInstallmentsByMonthResponse where
  debtorId : String
  debtorName : String
  debtorEmail : String
  year : Int
  month : Nat
  totalAmount : Rat
  installments : List UnpaidInstallmentByMonthItem
deriving DecidableEq, Repr

/-- One per-month row of the monthly free-amount report. -/
structure MonthlyFreeAmountItem where
  month : Nat
  year : Int
  freeAmount : Rat
deriving DecidableEq, Repr

/-- Response of `GET /api/financial-plan/monthly-free-amount?year=`. -/
structure GetMonthlyFreeAmountResponse where
  year : Int
  currentSalary : Rat
  monthlySavingsGoal : Rat
  monthlyFixedExpenses : Rat
  monthlyOptionalExpenses : Rat
  monthlyFreeAmount : Rat
  months : List MonthlyFreeAmountItem
deriving DecidableEq, Repr

/-- Snapshot payment status. -/
inductive SalarySnapshotStatus where
  | PENDING
  | PAID
deriving DecidableEq, Repr

/-- A materialized salary snapshot (`GET /api/salary-snapshots`). -/
structure SalarySnapshot where
  id : String
  debtorId : String
  year : Int
  month : Nat
  monthlyFreeAmount : Rat
  halfFreeAmount : Rat
  totalInstallmentsAmount : Rat
  salaryColumnAmount : Rat
  status : SalarySnapshotStatus
  createdAt : String
  paidAt : Option String
deriving DecidableEq, Repr

/-- Response of `POST /api/salary-snapshots/pay`. -/
structure PayMonthlySalaryResponse where
  created : Bool
  snapshot : SalarySnapshot
deriving DecidableEq, Repr

/-! ## View state (src/App.tsx) -/

/-- The tab keys of the view. -/
inductive TabKey where
  | debtors
  | debtorProfile
  | debts
  | recurring
  | salary
deriving DecidableEq, Repr

/-- Notice severity. -/
inductive NoticeType where
  | success
  | error
deriving DecidableEq, Repr

/-- The single current notice (`AppNotice` minus the `null` case, which is
`Option Notice` in the state). -/
structure Notice where
  type : NoticeType
  text : String
deriving DecidableEq, Repr

/-- A value thrown by an awaited call, as discriminated by the client code:
an `ApiClientError` (which is an `Error`), some other `Error` with a
message, or a non-`Error` value. -/
inductive ThrownError where
  | api (message : String) (status : Nat)
  | plain (message : String)
  | nonError
deriving DecidableEq, Repr

/-- `toErrorMessage` of App.tsx: the error's message when it is an `Error`
with a truthy (non-empty) message, otherwise the generic fallback text. -/
def toErrorMessage : ThrownError → String
  | .api m _ => if m = "" then "Ocurrió un error inesperado." else m
  | .plain m => if m = "" then "Ocurrió un error inesperado." else m
  | .nonError => "Ocurrió un error inesperado."

/-- Shorthand for the error notice a `catch` block stores. -/
def errorNotice (e : ThrownError) : Notice :=
  ⟨.error, toErrorMessage e⟩

/-- Per-type recurring-expense lists (`RecurringState` in App.tsx). -/
structure RecurringState where
  FIXED : List RecurringExpense
  OPTIONAL : List RecurringExpense
deriving DecidableEq, Repr

/-- Per-type recurring-expense totals (`RecurringTotals` in App.tsx). -/
structure RecurringTotals where
  FIXED : Rat
  OPTIONAL : Rat
deriving DecidableEq, Repr

/-- Read the partition of one expense type. -/
def RecurringState.get (r : RecurringState) : ExpenseType → List RecurringExpense
  | .FIXED => r.FIXED
  | .OPTIONAL => r.OPTIONAL

/-- Replace the partition of one expense type (`{ ...current, [type]: _ }`). -/
def RecurringState.set (r : RecurringState) (t : ExpenseType)
    (l : List RecurringExpense) : RecurringState :=
  match t with
  | .FIXED => { r with FIXED := l }
  | .OPTIONAL => { r with OPTIONAL := l }

/-- Read the total of one expense type. -/
def RecurringTotals.get (r : RecurringTotals) : ExpenseType → Rat
  | .FIXED => r.FIXED
  | .OPTIONAL => r.OPTIONAL

/-- Replace the total of one expense type. -/
def RecurringTotals.set (r : RecurringTotals) (t : ExpenseType) (v : Rat) :
    RecurringTotals :=
  match t with
  | .FIXED => { r with FIXED := v }
  | .OPTIONAL => { r with OPTIONAL := v }

/-- The other partition of a given expense type. -/
def otherType : ExpenseType → ExpenseType
  | .FIXED => .OPTIONAL
  | .OPTIONAL => .FIXED

/-- The debtor-creation form. -/
structure DebtorForm where
  name : String
  email : String
deriving DecidableEq, Repr

/-- The recurring-expense creation form (amount still a raw input text). -/
structure RecurringForm where
  description : String
  amount : String
  type : ExpenseType
deriving DecidableEq, Repr

/-- The in-flight recurring-expense edit (`recurringEditing`). -/
structure RecurringEditing where
  id : String
  type : ExpenseType
  description : String
  amount : String
deriving DecidableEq, Repr

/-- The debt-creation form; all fields are raw input text. -/
structure DebtForm where
  debtorId : String
  description : String
  totalAmount : String
  installmentsCount : String
  installmentAmount : String
  firstInstallmentDueDate : String
deriving DecidableEq, Repr

/-- The debtor/month/year selection of the profile query. -/
structure DebtorMonthlyQuery where
  debtorId : String
  month : Nat
  year : Int
deriving DecidableEq, Repr

/-- The pending debt-deletion confirmation (`PendingDebtDelete`). -/
structure PendingDebtDelete where
  debtId : String
  debtDescription : String
deriving DecidableEq, Repr

/-- The open debt-detail modal target (`DebtDetailModalState` minus null). -/
structure DebtDetailModalState where
  debtorId : String
  debtorName : String
  debtorEmail : String
  debtId : String
deriving DecidableEq, Repr

/-- The slice of App.tsx component state that the orchestration logic reads
and writes (presentation-only fields are omitted). -/
structure AppState where
  activeTab : TabKey
  bootLoading : Bool
  notice : Option Notice
  debtors : List Debtor
  recurringExpenses : RecurringState
  recurringTotals : RecurringTotals
  pendingDebtDelete : Option PendingDebtDelete
  unpaidByMonthLoading : Bool
  unpaidByMonthResult : Option GetUnpaidInstallmentsByMonthResponse
  debtDetailModal : Option DebtDetailModalState
  debtDetailLoading : Bool
  debtDetail : Option Debt
  debtDetailPage : Nat
  debtorForm : DebtorForm
  monthlyFreeAmountLoading : Bool
  monthlyFreeAmountResult : Option GetMonthlyFreeAmountResponse
  salarySnapshot : Option SalarySnapshot
  salaryPreviewAmount : Rat
  salarySnapshotLoading : Bool
  salaryPaying : Bool
  recurringForm : RecurringForm
  recurringEditing : Option RecurringEditing
  debtForm : DebtForm
  debtorMonthlyQuery : DebtorMonthlyQuery
deriving DecidableEq, Repr

/-- The initial component state built by the `useState` initializers;
`today`, `year` and `month` stand for `getTodayDate()`, `getCurrentYear()`
and `getCurrentMonth()`. -/
def initialState (today : String) (year : Int) (month : Nat) : AppState where
  activeTab := .debtors
  bootLoading := true
  notice := none
  debtors := []
  recurringExpenses := ⟨[], []⟩
  recurringTotals := ⟨0, 0⟩
  pendingDebtDelete := none
  unpaidByMonthLoading := false
  unpaidByMonthResult := none
  debtDetailModal := none
  debtDetailLoading := false
  debtDetail := none
  debtDetailPage := 1
  debtorForm := ⟨"", ""⟩
  monthlyFreeAmountLoading := false
  monthlyFreeAmountResult := none
  salarySnapshot := none
  salaryPreviewAmount := 0
  salarySnapshotLoading := false
  salaryPaying := false
  recurringForm := ⟨"", "", .FIXED⟩
  recurringEditing := none
  debtForm := ⟨"", "", "", "1", "", today⟩
  debtorMonthlyQuery := ⟨"", month, year⟩

/-! ## Orchestrator transitions (src/App.tsx)

Each `async function` of App.tsx becomes a pure transition taking the entry
state and one `Except ThrownError _` per awaited call, in program order. -/

/-- The debtor-id reconciliation inlined twice in `reloadDebtors`: keep the
current id when it is still present in the fetched list, otherwise take the
first debtor's id, or the empty string for an empty list. -/
def reconcileDebtorId (ds : List Debtor) (current : String) : String :=
  if ds.any (fun d => d.id == current) then current
  else ((ds.head?).map Debtor.id).getD ""

/-- `reloadDebtors` applied to a successfully fetched list: store the list
and reconcile both debtor-id selections (debt form and monthly query). -/
def reloadDebtors (s : AppState) (fetched : List Debtor) : AppState :=
  { s with
    debtors := fetched
    debtForm := { s.debtForm with
      debtorId := reconcileDebtorId fetched s.debtForm.debtorId }
    debtorMonthlyQuery := { s.debtorMonthlyQuery with
      debtorId := reconcileDebtorId fetched s.debtorMonthlyQuery.debtorId } }

/-- The data fetched by a recurring refresh: per-type lists and totals. -/
structure RecurringFetch where
  lists : RecurringState
  totals : RecurringTotals
deriving DecidableEq, Repr

/-- `reloadRecurring` applied to successfully fetched data: with no type it
replaces both partitions and both totals; with a type it replaces only that
type's list and total via functional spread updates. -/
def reloadRecurring (s : AppState) (t : Option ExpenseType) (f : RecurringFetch) :
    AppState :=
  match t with
  | none =>
      { s with
        recurringExpenses := ⟨f.lists.FIXED, f.lists.OPTIONAL⟩
        recurringTotals := ⟨f.totals.FIXED, f.totals.OPTIONAL⟩ }
  | some t =>
      { s with
        recurringExpenses := s.recurringExpenses.set t (f.lists.get t)
        recurringTotals := s.recurringTotals.set t (f.totals.get t) }

/-- `handleCreateDebtor`: clear the notice; on create success reset the
form, reload debtors, then store the success notice; any rejection is
caught and stored via `toErrorMessage`. -/
def handleCreateDebtor (s : AppState)
    (createOutcome : Except ThrownError Unit)
    (listOutcome : Except ThrownError (List Debtor)) : AppState :=
  let s1 := { s with notice := none }
  match createOutcome with
  | .error e => { s1 with notice := some (errorNotice e) }
  | .ok _ =>
      let s2 := { s1 with debtorForm := ⟨"", ""⟩ }
      match listOutcome with
      | .error e => { s2 with notice := some (errorNotice e) }
      | .ok ds =>
          { reloadDebtors s2 ds with
            notice := some ⟨.success, "Deudor creado correctamente."⟩ }

/-- `loadMonthlyFreeAmount`: clear the notice unless silent; store the
result, or clear it and (unless silent) store the error notice. -/
def loadMonthlyFreeAmount (s : AppState) (silentNotice : Bool)
    (outcome : Except ThrownError GetMonthlyFreeAmountResponse) : AppState :=
  let s1 := { s with
    monthlyFreeAmountLoading := true
    notice := if silentNotice then s.notice else none }
  let s2 :=
    match outcome with
    | .ok result => { s1 with monthlyFreeAmountResult := some result }
    | .error e =>
        { s1 with
          monthlyFreeAmountResult := none
          notice := if silentNotice then s1.notice else some (errorNotice e) }
  { s2 with monthlyFreeAmountLoading := false }

/-- `handleCreateRecurringExpense`: on create success the form's type is
captured, the form reset, and only that type's partition reloaded. -/
def handleCreateRecurringExpense (s : AppState)
    (createOutcome : Except ThrownError Unit)
    (reloadOutcome : Except ThrownError RecurringFetch) : AppState :=
  let s1 := { s with notice := none }
  match createOutcome with
  | .error e => { s1 with notice := some (errorNotice e) }
  | .ok _ =>
      let typeToRefresh := s.recurringForm.type
      let s2 := { s1 with recurringForm := ⟨"", "", typeToRefresh⟩ }
      match reloadOutcome with
      | .error e => { s2 with notice := some (errorNotice e) }
      | .ok f =>
          { reloadRecurring s2 (some typeToRefresh) f with
            notice := some ⟨.success, "Gasto recurrente creado."⟩ }

/-- `handleUpdateRecurringExpense`: no-op without an in-flight edit; on
update success the edit is dismissed and only its type reloaded. -/
def handleUpdateRecurringExpense (s : AppState)
    (updateOutcome : Except ThrownError Unit)
    (reloadOutcome : Except ThrownError RecurringFetch) : AppState :=
  match s.recurringEditing with
  | none => s
  | some editing =>
      let s1 := { s with notice := none }
      match updateOutcome with
      | .error e => { s1 with notice := some (errorNotice e) }
      | .ok _ =>
          let typeToRefresh := editing.type
          let s2 := { s1 with recurringEditing := none }
          match reloadOutcome with
          | .error e => { s2 with notice := some (errorNotice e) }
          | .ok f =>
              { reloadRecurring s2 (some typeToRefresh) f with
                notice := some ⟨.success, "Gasto recurrente actualizado."⟩ }

/-- The deletion target captured by the confirmation modal. -/
structure RecurringDeleteTarget where
  id : String
  description : String
  type : ExpenseType
deriving DecidableEq, Repr

/-- `deleteRecurringExpenseByTarget`: on delete success, dismiss a matching
in-flight edit and reload only the target's type. -/
def deleteRecurringExpenseByTarget (s : AppState) (target : RecurringDeleteTarget)
    (deleteOutcome : Except ThrownError Unit)
    (reloadOutcome : Except ThrownError RecurringFetch) : AppState :=
  let s1 := { s with notice := none }
  match deleteOutcome with
  | .error e => { s1 with notice := some (errorNotice e) }
  | .ok _ =>
      let s2 := { s1 with
        recurringEditing :=
          match s1.recurringEditing with
          | some current => if current.id == target.id then none else some current
          | none => none }
      match reloadOutcome with
      | .error e => { s2 with notice := some (errorNotice e) }
      | .ok f =>
          { reloadRecurring s2 (some target.type) f with
            notice := some ⟨.success, "Gasto recurrente eliminado."⟩ }

/-- `handleCreateDebt`: on create success reset the form fields (the due
date back to `today`), store the success notice, then reload debtors; a
failing reload overwrites the success notice with the error notice. -/
def handleCreateDebt (s : AppState) (today : String)
    (createOutcome : Except ThrownError Unit)
    (listOutcome : Except ThrownError (List Debtor)) : AppState :=
  let s1 := { s with notice := none }
  match createOutcome with
  | .error e => { s1 with notice := some (errorNotice e) }
  | .ok _ =>
      let s2 := { s1 with debtForm := { s1.debtForm with
        description := ""
        totalAmount := ""
        installmentsCount := "1"
        installmentAmount := ""
        firstInstallmentDueDate := today } }
      let s3 := { s2 with notice := some ⟨.success, "Deuda creada correctamente."⟩ }
      match listOutcome with
      | .error e => { s3 with notice := some (errorNotice e) }
      | .ok ds => reloadDebtors s3 ds

/-- `confirmDeleteDebt`: no-op without a pending confirmation; otherwise
clear it and the notice, and on delete success store the success notice
then reload debtors. -/
def confirmDeleteDebt (s : AppState)
    (deleteOutcome : Except ThrownError Unit)
    (listOutcome : Except ThrownError (List Debtor)) : AppState :=
  match s.pendingDebtDelete with
  | none => s
  | some _ =>
      let s1 := { s with pendingDebtDelete := none, notice := none }
      match deleteOutcome with
      | .error e => { s1 with notice := some (errorNotice e) }
      | .ok _ =>
          let s2 := { s1 with
            notice := some ⟨.success, "Deuda eliminada correctamente."⟩ }
          match listOutcome with
          | .error e => { s2 with notice := some (errorNotice e) }
          | .ok ds => reloadDebtors s2 ds

/-- Does this thrown value satisfy
`error instanceof ApiClientError && error.status === 404`? -/
def isApiNotFound : ThrownError → Bool
  | .api _ status => status == 404
  | _ => false

/-- The three call outcomes of one `loadDebtorMonthData` run, in program
order: unpaid installments, monthly free amount, salary snapshot. -/
structure MonthDataOutcomes where
  unpaid : Except ThrownError GetUnpaidInstallmentsByMonthResponse
  free : Except ThrownError GetMonthlyFreeAmountResponse
  snapshot : Except ThrownError SalarySnapshot

/-- `loadDebtorMonthData`: early-return on an empty debtor id; reset the
snapshot, preview and notice; fetch the unpaid installments, then the
monthly free amount, compute the preview as
`monthlyFreeAmount / 2 - (sum of unpaid amounts)`, then fetch the snapshot,
treating a 404 as "no snapshot yet" and rethrowing anything else into the
outer catch, which drops the unpaid result and stores the error notice. -/
def loadDebtorMonthData (s : AppState) (debtorId : String)
    (o : MonthDataOutcomes) : AppState :=
  if debtorId = "" then s
  else
    let s1 := { s with
      unpaidByMonthLoading := true
      salarySnapshot := none
      salaryPreviewAmount := 0
      notice := none }
    let s9 :=
      match o.unpaid with
      | .error e =>
          { s1 with unpaidByMonthResult := none, notice := some (errorNotice e) }
      | .ok result =>
          let s2 := { s1 with unpaidByMonthResult := some result }
          match o.free with
          | .error e =>
              { s2 with unpaidByMonthResult := none, notice := some (errorNotice e) }
          | .ok monthlyFreeAmount =>
              let totalInstallments : Rat :=
                result.installments.foldl
                  (fun sum (item : UnpaidInstallmentByMonthItem) => sum + item.amount) 0
              let preview := monthlyFreeAmount.monthlyFreeAmount / 2 - totalInstallments
              let s3 := { s2 with
                salaryPreviewAmount := preview
                salarySnapshotLoading := true }
              match o.snapshot with
              | .ok snapshot =>
                  { s3 with
                    salarySnapshot := some snapshot
                    salarySnapshotLoading := false }
              | .error e =>
                  if isApiNotFound e then
                    { s3 with salarySnapshot := none, salarySnapshotLoading := false }
                  else
                    { s3 with
                      salarySnapshotLoading := false
                      unpaidByMonthResult := none
                      notice := some (errorNotice e) }
    { s9 with unpaidByMonthLoading := false }

/-- `runUnpaidByMonthQuery`: with no selected debtor store the selection
error notice, otherwise run `loadDebtorMonthData` on the current query. -/
def runUnpaidByMonthQuery (s : AppState) (o : MonthDataOutcomes) : AppState :=
  if s.debtorMonthlyQuery.debtorId = "" then
    { s with
      notice := some ⟨.error, "Selecciona un deudor para buscar cuotas impagas."⟩ }
  else loadDebtorMonthData s s.debtorMonthlyQuery.debtorId o

/-- `loadDebtDetail`: open the modal on the target, reset the detail and
page, clear the notice; on success refresh the modal's debtor header from
the response and store the debt; on failure store the error notice and
close the modal. -/
def loadDebtDetail (s : AppState) (target : DebtDetailModalState)
    (outcome : Except ThrownError GetDebtDetailResponse) : AppState :=
  let s1 := { s with
    debtDetailModal := some target
    debtDetail := none
    debtDetailPage := 1
    debtDetailLoading := true
    notice := none }
  match outcome with
  | .ok response =>
      { s1 with
        debtDetailModal := some { target with
          debtorId := response.id
          debtorName := response.name
          debtorEmail := response.email }
        debtDetail := some response.debt
        debtDetailLoading := false }
  | .error e =>
      { s1 with
        notice := some (errorNotice e)
        debtDetailModal := none
        debtDetailLoading := false }

/-- `handlePayInstallment`: clear the notice; on pay success store the
success notice, reload debtors, then — using the tab, query and modal
captured by the handler's closure at entry — re-run the monthly query when
the profile tab is active and reload the detail modal when one is open.
A rejection of the pay or debtor-reload call is caught into an error
notice; the two view reloads catch their own failures internally. -/
def handlePayInstallment (s : AppState)
    (payOutcome : Except ThrownError Unit)
    (listOutcome : Except ThrownError (List Debtor))
    (monthOutcomes : MonthDataOutcomes)
    (detailOutcome : Except ThrownError GetDebtDetailResponse) : AppState :=
  let tab0 := s.activeTab
  let query0 := s.debtorMonthlyQuery
  let modal0 := s.debtDetailModal
  let s1 := { s with notice := none }
  match payOutcome with
  | .error e => { s1 with notice := some (errorNotice e) }
  | .ok _ =>
      let s2 := { s1 with notice := some ⟨.success, "Cuota marcada como pagada."⟩ }
      match listOutcome with
      | .error e => { s2 with notice := some (errorNotice e) }
      | .ok ds =>
          let s3 := reloadDebtors s2 ds
          let s4 :=
            if tab0 = .debtorProfile then
              if query0.debtorId = "" then
                { s3 with
                  notice := some ⟨.error, "Selecciona un deudor para buscar cuotas impagas."⟩ }
              else loadDebtorMonthData s3 query0.debtorId monthOutcomes
            else s3
          match modal0 with
          | some target => loadDebtDetail s4 target detailOutcome
          | none => s4

/-- `handlePayMonthlySalary`: guard on an empty selection; on success store
the returned snapshot and the success notice. -/
def handlePayMonthlySalary (s : AppState)
    (outcome : Except ThrownError PayMonthlySalaryResponse) : AppState :=
  if s.debtorMonthlyQuery.debtorId = "" then s
  else
    let s1 := { s with salaryPaying := true, notice := none }
    let s2 :=
      match outcome with
      | .ok response =>
          { s1 with
            salarySnapshot := some response.snapshot
            notice := some ⟨.success, "Sueldo mensual pagado y snapshot guardado."⟩ }
      | .error e => { s1 with notice := some (errorNotice e) }
    { s2 with salaryPaying := false }

/-- `handleDownloadMonthlyPdf`: guard on an empty selection; clear the
notice; a successful download only performs DOM side effects and stores no
notice, a failure stores the error notice. -/
def handleDownloadMonthlyPdf (s : AppState)
    (outcome : Except ThrownError Unit) : AppState :=
  if s.debtorMonthlyQuery.debtorId = "" then s
  else
    let s1 := { s with notice := none }
    match outcome with
    | .ok _ => s1
    | .error e => { s1 with notice := some (errorNotice e) }

/-- The five concurrently fetched startup resources (the `Promise.all` of
`loadInitialData`). -/
structure InitialData where
  debtors : List Debtor
  fixedList : List RecurringExpense
  optionalList : List RecurringExpense
  fixedTotal : Rat
  optionalTotal : Rat
deriving DecidableEq, Repr

/-- `loadInitialData`: set `bootLoading`; on success of the whole group
store the five resources, default each empty debtor-id selection to the
first fetched debtor, and kick off a silent monthly-free-amount load; on
any failure store one error notice; either way `finally` ends boot
loading. -/
def loadInitialData (s : AppState)
    (outcome : Except ThrownError InitialData)
    (freeOutcome : Except ThrownError GetMonthlyFreeAmountResponse) : AppState :=
  let s1 := { s with bootLoading := true }
  let s9 :=
    match outcome with
    | .error e => { s1 with notice := some (errorNotice e) }
    | .ok d =>
        let s2 := { s1 with
          debtors := d.debtors
          recurringExpenses := ⟨d.fixedList, d.optionalList⟩
          recurringTotals := ⟨d.fixedTotal, d.optionalTotal⟩ }
        let s3 := { s2 with
          debtForm := { s2.debtForm with
            debtorId :=
              if s2.debtForm.debtorId ≠ "" then s2.debtForm.debtorId
              else ((d.debtors.head?).map Debtor.id).getD "" }
          debtorMonthlyQuery := { s2.debtorMonthlyQuery with
            debtorId :=
              if s2.debtorMonthlyQuery.debtorId ≠ "" then s2.debtorMonthlyQuery.debtorId
              else ((d.debtors.head?).map Debtor.id).getD "" } }
        loadMonthlyFreeAmount s3 true freeOutcome
  { s9 with bootLoading := false }

/-- The main view is rendered exactly when boot loading is over
(`{!bootLoading && (<main .../>)}`). -/
def mainViewRevealed (s : AppState) : Bool :=
  !s.bootLoading

/-- The salary figure the profile view displays:
`salarySnapshot?.salaryColumnAmount ?? salaryPreviewAmount`. -/
def displayedSalaryFigure (s : AppState) : Rat :=
  match s.salarySnapshot with
  | some snapshot => snapshot.salaryColumnAmount
  | none => s.salaryPreviewAmount

/-- The status rendering of a snapshot. -/
def SalarySnapshotStatus.text : SalarySnapshotStatus → String
  | .PENDING => "PENDING"
  | .PAID => "PAID"

/-- The label rendered next to the salary figure: the snapshot's status
when one is materialized, the literal `(preview)` otherwise. -/
def salaryFigureLabel (s : AppState) : String :=
  match s.salarySnapshot with
  | some snapshot => " (" ++ snapshot.status.text ++ ")"
  | none => " (preview)"

/-! ## Amount-input helpers (App.tsx, `formatAmountInput` / `parseAmountInput`)

JavaScript `value.replace(/\D/g, "")` keeps exactly the ASCII decimal
digits in order; `Number(digits)` reads them as a base-10 numeral (modelled
exactly over `Nat`); the `es-CL` integer number format renders the decimal
numeral grouped in threes from the right with `.` separators. -/

/-- Numeric value of a decimal digit character. -/
def digitVal (c : Char) : Nat :=
  c.toNat - 48

/-- `value.replace(/\D/g, "")`: keep only decimal digits. -/
def filterDigits (s : String) : String :=
  String.mk (s.data.filter Char.isDigit)

/-- `Number(s)` on an all-digit string: the base-10 value of the digits
read left to right. -/
def numberOfDigitString (s : String) : Nat :=
  s.data.foldl (fun acc c => 10 * acc + digitVal c) 0

/-- `parseAmountInput`: strip non-digits, then `Number(digits)`, with 0 for
a digit-free input. -/
def parseAmountInput (s : String) : Nat :=
  let digitsOnly := filterDigits s
  if digitsOnly = "" then 0 else numberOfDigitString digitsOnly

/-- The decimal rendering of a natural number (what
`Intl.NumberFormat` starts from before grouping). -/
def natDecimalRepr (n : Nat) : String :=
  if n = 0 then "0"
  else String.mk (((Nat.digits 10 n).reverse).map (fun d => Char.ofNat (d + 48)))

/-- Insert the `es-CL` thousands separator: working on the reversed digit
list, keep groups of three and put a `.` between groups. -/
def groupThousandsRev : List Char → List Char
  | [] => []
  | [a] => [a]
  | [a, b] => [a, b]
  | [a, b, c] => [a, b, c]
  | a :: b :: c :: d :: rest => a :: b :: c :: '.' :: groupThousandsRev (d :: rest)

/-- `formatAmountInput`: strip non-digits; an empty result stays empty,
otherwise render `Number(digits)` with `es-CL` integer grouping. -/
def formatAmountInput (s : String) : String :=
  let digitsOnly := filterDigits s
  if digitsOnly = "" then ""
  else
    String.mk
      ((groupThousandsRev (natDecimalRepr (numberOfDigitString digitsOnly)).data.reverse).reverse)

/-! ## Debt-detail pagination (App.tsx) -/

/-- `DEBT_DETAIL_PAGE_SIZE = 5`. -/
def DEBT_DETAIL_PAGE_SIZE : Nat := 5

/-- `debtDetailTotalPages`: `max(1, ceil(installments.length / 5))` for a
loaded debt, 1 with no debt loaded (`Math.ceil` over naturals is
`(n + 5 - 1) / 5`). -/
def debtDetailTotalPages (detail : Option Debt) : Nat :=
  match detail with
  | some debt =>
      max 1 ((debt.installments.length + DEBT_DETAIL_PAGE_SIZE - 1) / DEBT_DETAIL_PAGE_SIZE)
  | none => 1

/-- `debtDetailVisibleInstallments`: the `slice((page-1)*5, page*5)` of the
loaded debt's installments, empty with no debt loaded. -/
def debtDetailVisibleInstallments (detail : Option Debt) (page : Nat) :
    List Installment :=
  match detail with
  | some debt =>
      (debt.installments.drop ((page - 1) * DEBT_DETAIL_PAGE_SIZE)).take
        (page * DEBT_DETAIL_PAGE_SIZE - (page - 1) * DEBT_DETAIL_PAGE_SIZE)
  | none => []

/-- The `Anterior` button: `Math.max(1, current - 1)`. -/
def debtDetailPrevPage (page : Nat) : Nat :=
  max 1 (page - 1)

/-- The `Siguiente` button: `Math.min(totalPages, current + 1)`. -/
def debtDetailNextPage (totalPages page : Nat) : Nat :=
  min totalPages (page + 1)

/-- The user actions that touch the debt-detail page state. -/
inductive DebtDetailAction where
  | openDetail (target : DebtDetailModalState)
      (outcome : Except ThrownError GetDebtDetailResponse)
  | prevPage
  | nextPage

/-- One debt-detail action applied to the state. -/
def debtDetailStep (s : AppState) : DebtDetailAction → AppState
  | .openDetail target outcome => loadDebtDetail s target outcome
  | .prevPage => { s with debtDetailPage := debtDetailPrevPage s.debtDetailPage }
  | .nextPage =>
      { s with debtDetailPage :=
          debtDetailNextPage (debtDetailTotalPages s.debtDetail) s.debtDetailPage }

/-- The pagination invariant: the current page lies in `1..pageCount`. -/
def debtDetailPageInBounds (s : AppState) : Prop :=
  1 ≤ s.debtDetailPage ∧ s.debtDetailPage ≤ debtDetailTotalPages s.debtDetail

/-! ## Shared helper lemmas and sample data -/

theorem string_ne_empty_iff_length_pos (s : String) : s ≠ "" ↔ 0 < s.length := by
  have hempty : ("" : String).data = [] := rfl
  rw [ne_eq, String.ext_iff, hempty]
  cases hd : s.data with
  | nil => simp [String.length, hd]
  | cons c cs => simp [String.length, hd]

theorem reconcileDebtorId_of_mem (ds : List Debtor) (cur : String)
    (h : ∃ d ∈ ds, d.id = cur) : reconcileDebtorId ds cur = cur := by
  unfold reconcileDebtorId
  rw [if_pos]
  rw [List.any_eq_true]
  obtain ⟨d, hd, hid⟩ := h
  exact ⟨d, hd, by simp [hid]⟩

theorem reconcileDebtorId_of_not_mem (ds : List Debtor) (cur : String)
    (h : ¬ ∃ d ∈ ds, d.id = cur) :
    reconcileDebtorId ds cur = ((ds.head?).map Debtor.id).getD "" := by
  unfold reconcileDebtorId
  rw [if_neg]
  intro hany
  rw [List.any_eq_true] at hany
  obtain ⟨d, hd, hid⟩ := hany
  exact h ⟨d, hd, by simpa using hid⟩

theorem head_id_getD_eq_match (ds : List Debtor) :
    ((ds.head?).map Debtor.id).getD "" =
      match ds with
      | [] => ""
      | d :: _ => d.id := by
  cases ds <;> rfl

/-- Sample debtors used by concrete witnesses. -/
def debtorAna : Debtor := ⟨"d1", "Ana", "ana@x.com", 1000⟩

/-- A second sample debtor. -/
def debtorBea : Debtor := ⟨"d2", "Bea", "bea@x.com", 2000⟩

/-! ## C1 — REST-client error conversion -/

/-- C1 counterexample: for the binary report endpoint
(`downloadMonthlySummaryPdf`, routed through `requestBlob`), a 500 response
whose body is valid JSON with the non-empty `message` field `boom` still
produces the generic `HTTP 500` message — not `boom` as the claim requires
of every endpoint —, even though `request`'s message rule would have picked
`boom` for the same response. -/
theorem C1_blob_ignores_message_counterexample :
    endpointOutcome Endpoint.downloadMonthlySummaryPdf 500 (ErrorBody.jsonWithMessage "boom")
      = RequestOutcome.apiFailure ⟨"HTTP 500", 500⟩ ∧
    requestErrorMessage 500 (ErrorBody.jsonWithMessage "boom") = "boom" ∧
    jsTrim "boom" ≠ "" ∧
    ("HTTP 500" : String) ≠ "boom" := by
  refine ⟨by decide, by decide, by decide, by decide⟩

/-- C1 (amended): every non-2xx response makes the client throw exactly one
`ApiClientError` carrying the response status; for every JSON endpoint its
message is the error body's `message` field when that parses as JSON to a
string with non-empty trimmed form and the generic `HTTP <status>` text
otherwise (in particular no secondary error on an empty or non-JSON body,
which is the total `notJson` case); the binary report endpoint alone always
carries the generic text regardless of the body. -/
theorem C1_error_contract (e : Endpoint) (status : Nat) (body : ErrorBody)
    (h : responseOk status = false) :
    ∃ err : ApiClientError,
      endpointOutcome e status body = RequestOutcome.apiFailure err ∧
      err.status = status ∧
      err.message =
        (if usesBlobRequest e then "HTTP " ++ toString status
         else
           match body with
           | .jsonWithMessage m =>
               if jsTrim m ≠ "" then m else "HTTP " ++ toString status
           | _ => "HTTP " ++ toString status) := by
  unfold endpointOutcome requestBlob request requestErrorMessage
  cases hb : usesBlobRequest e with
  | true =>
      refine ⟨⟨"HTTP " ++ toString status, status⟩, ?_, rfl, ?_⟩
      · simp [h, hb]
      · simp [hb]
  | false =>
      cases body with
      | notJson =>
          exact ⟨⟨"HTTP " ++ toString status, status⟩, by simp [h, hb], rfl, by simp [hb]⟩
      | jsonOther =>
          exact ⟨⟨"HTTP " ++ toString status, status⟩, by simp [h, hb], rfl, by simp [hb]⟩
      | jsonWithMessage m =>
          by_cases hm : 0 < (jsTrim m).length
          · refine ⟨⟨m, status⟩, by simp [h, hb, hm], rfl, ?_⟩
            have hne : jsTrim m ≠ "" := (string_ne_empty_iff_length_pos (jsTrim m)).mpr hm
            simp [hb, hne]
          · refine ⟨⟨"HTTP " ++ toString status, status⟩, by simp [h, hb, hm], rfl, ?_⟩
            have heq : jsTrim m = "" := by
              by_contra hcon
              exact hm ((string_ne_empty_iff_length_pos (jsTrim m)).mp hcon)
            simp [hb, heq]

/-- C1 witness: the contract applied to a concrete 404 on a JSON endpoint
with an empty body. -/
theorem C1_error_contract_witness :
    responseOk 404 = false ∧
    (∃ err : ApiClientError,
      endpointOutcome Endpoint.listDebtors 404 ErrorBody.notJson = RequestOutcome.apiFailure err ∧
      err.status = 404 ∧
      err.message =
        (if usesBlobRequest Endpoint.listDebtors then "HTTP " ++ toString 404
         else
           match ErrorBody.notJson with
           | .jsonWithMessage m =>
               if jsTrim m ≠ "" then m else "HTTP " ++ toString 404
           | _ => "HTTP " ++ toString 404)) :=
  ⟨by decide, C1_error_contract Endpoint.listDebtors 404 ErrorBody.notJson (by decide)⟩

/-! ## C2 — selection reconciliation on debtor reload -/

/-- C2: on every `reloadDebtors`, each of the two debtor-id selections (the
debt-creation form's and the monthly query's) is preserved when the
previously selected id still occurs in the fetched list, and otherwise
becomes the fetched list's first id, or the empty selection when the list
is empty; the fetched list itself is stored. -/
theorem C2_reload_selection (s : AppState) (fetched : List Debtor) :
    ((∃ d ∈ fetched, d.id = s.debtForm.debtorId) →
        (reloadDebtors s fetched).debtForm.debtorId = s.debtForm.debtorId) ∧
    ((¬ ∃ d ∈ fetched, d.id = s.debtForm.debtorId) →
        (reloadDebtors s fetched).debtForm.debtorId =
          match fetched with
          | [] => ""
          | d :: _ => d.id) ∧
    ((∃ d ∈ fetched, d.id = s.debtorMonthlyQuery.debtorId) →
        (reloadDebtors s fetched).debtorMonthlyQuery.debtorId =
          s.debtorMonthlyQuery.debtorId) ∧
    ((¬ ∃ d ∈ fetched, d.id = s.debtorMonthlyQuery.debtorId) →
        (reloadDebtors s fetched).debtorMonthlyQuery.debtorId =
          match fetched with
          | [] => ""
          | d :: _ => d.id) ∧
    (reloadDebtors s fetched).debtors = fetched := by
  refine ⟨?_, ?_, ?_, ?_, rfl⟩
  · intro h
    exact reconcileDebtorId_of_mem fetched _ h
  · intro h
    rw [show (reloadDebtors s fetched).debtForm.debtorId =
        reconcileDebtorId fetched s.debtForm.debtorId from rfl,
      reconcileDebtorId_of_not_mem fetched _ h, head_id_getD_eq_match]
  · intro h
    exact reconcileDebtorId_of_mem fetched _ h
  · intro h
    rw [show (reloadDebtors s fetched).debtorMonthlyQuery.debtorId =
        reconcileDebtorId fetched s.debtorMonthlyQuery.debtorId from rfl,
      reconcileDebtorId_of_not_mem fetched _ h, head_id_getD_eq_match]

/-- C2 witness: a reload that keeps a still-existing selection `d2` in the
debt form and defaults a vanished selection `gone` in the monthly query to
the first fetched id `d1`. -/
theorem C2_reload_selection_witness :
    (∃ d ∈ [debtorAna, debtorBea], d.id =
        ({ initialState ("2026-10-12") 2026 10 with
            debtForm := ⟨"d2", "", "", "1", "", "2026-10-12"⟩,
            debtorMonthlyQuery := ⟨"gone", 10, 2026⟩ } : AppState).debtForm.debtorId) ∧
    (¬ ∃ d ∈ [debtorAna, debtorBea], d.id =
        ({ initialState ("2026-10-12") 2026 10 with
            debtForm := ⟨"d2", "", "", "1", "", "2026-10-12"⟩,
            debtorMonthlyQuery := ⟨"gone", 10, 2026⟩ } : AppState).debtorMonthlyQuery.debtorId) ∧
    (reloadDebtors
        { initialState ("2026-10-12") 2026 10 with
            debtForm := ⟨"d2", "", "", "1", "", "2026-10-12"⟩,
            debtorMonthlyQuery := ⟨"gone", 10, 2026⟩ }
        [debtorAna, debtorBea]).debtForm.debtorId = "d2" ∧
    (reloadDebtors
        { initialState ("2026-10-12") 2026 10 with
            debtForm := ⟨"d2", "", "", "1", "", "2026-10-12"⟩,
            debtorMonthlyQuery := ⟨"gone", 10, 2026⟩ }
        [debtorAna, debtorBea]).debtorMonthlyQuery.debtorId = "d1" := by
  refine ⟨by decide, by decide, ?_, ?_⟩
  · exact (C2_reload_selection _ _).1 (by decide)
  · exact (C2_reload_selection _ _).2.2.2.1 (by decide)

/-! ## C3 / C4 — debtor-month load -/

theorem foldl_add_eq_sum_map (l : List UnpaidInstallmentByMonthItem) (a : Rat) :
    l.foldl (fun sum item => sum + item.amount) a =
      a + (l.map (fun i => i.amount)).sum := by
  induction l generalizing a with
  | nil => simp
  | cons x xs ih => simp [ih, add_assoc]

/-- Sample unpaid installment used by concrete witnesses. -/
def sampleUnpaidItem : UnpaidInstallmentByMonthItem :=
  ⟨"i1", "debt9", "Laptop", 1, 3, "2026-10-05", 100, false, none⟩

/-- Sample unpaid-by-month response for debtor `d1`. -/
def sampleUnpaidResult : GetUnpaidInstallmentsByMonthResponse :=
  ⟨"d1", "Ana", "ana@x.com", 2026, 10, 100, [sampleUnpaidItem]⟩

/-- Sample monthly-free-amount response with free amount 1000. -/
def sampleFreeAmount : GetMonthlyFreeAmountResponse :=
  ⟨2026, 1500000, 300000, 200000, 100000, 1000, [⟨10, 2026, 1000⟩]⟩

/-- Sample month-load outcomes where the snapshot read fails with 404. -/
def sampleMonthOutcomes404 : MonthDataOutcomes :=
  ⟨Except.ok sampleUnpaidResult, Except.ok sampleFreeAmount,
    Except.error (ThrownError.api ("No encontrado") 404)⟩

/-- C3: on a debtor-month load whose unpaid and free-amount reads succeed
and whose snapshot read fails with HTTP 404, no error notice is stored (the
notice cleared at entry stays cleared), the snapshot state is null, the
fetched unpaid result is kept, and the displayed salary figure is the
locally computed preview, labeled `(preview)`. -/
theorem C3_snapshot_404_not_failure (s : AppState) (debtorId : String)
    (o : MonthDataOutcomes) (u : GetUnpaidInstallmentsByMonthResponse)
    (f : GetMonthlyFreeAmountResponse) (m : String)
    (hid : debtorId ≠ "")
    (hu : o.unpaid = Except.ok u) (hf : o.free = Except.ok f)
    (hs : o.snapshot = Except.error (ThrownError.api m 404)) :
    (loadDebtorMonthData s debtorId o).notice = none ∧
    (loadDebtorMonthData s debtorId o).salarySnapshot = none ∧
    (loadDebtorMonthData s debtorId o).unpaidByMonthResult = some u ∧
    displayedSalaryFigure (loadDebtorMonthData s debtorId o) =
      (loadDebtorMonthData s debtorId o).salaryPreviewAmount ∧
    salaryFigureLabel (loadDebtorMonthData s debtorId o) = " (preview)" := by
  simp only [loadDebtorMonthData, if_neg hid, hu, hf, hs]
  simp [isApiNotFound, displayedSalaryFigure, salaryFigureLabel]

/-- C3 witness: the 404 behaviour at a concrete load for debtor `d1`. -/
theorem C3_snapshot_404_not_failure_witness :
    (loadDebtorMonthData (initialState ("2026-10-12") 2026 10) ("d1")
        sampleMonthOutcomes404).notice = none ∧
    (loadDebtorMonthData (initialState ("2026-10-12") 2026 10) ("d1")
        sampleMonthOutcomes404).salarySnapshot = none ∧
    (loadDebtorMonthData (initialState ("2026-10-12") 2026 10) ("d1")
        sampleMonthOutcomes404).unpaidByMonthResult = some sampleUnpaidResult ∧
    displayedSalaryFigure
        (loadDebtorMonthData (initialState ("2026-10-12") 2026 10) ("d1")
          sampleMonthOutcomes404) =
      (loadDebtorMonthData (initialState ("2026-10-12") 2026 10) ("d1")
          sampleMonthOutcomes404).salaryPreviewAmount ∧
    salaryFigureLabel
        (loadDebtorMonthData (initialState ("2026-10-12") 2026 10) ("d1")
          sampleMonthOutcomes404) = " (preview)" :=
  C3_snapshot_404_not_failure (initialState ("2026-10-12") 2026 10) ("d1")
    sampleMonthOutcomes404 sampleUnpaidResult sampleFreeAmount ("No encontrado")
    (by decide) rfl rfl rfl

/-- C4: on every debtor-month load whose unpaid and free-amount reads
succeed, the stored preview equals `(monthly free amount / 2) - (sum of the
returned unpaid installment amounts)` whatever the snapshot read does; the
preview is the displayed figure, labeled `(preview)`, exactly when no
materialized snapshot is stored, and a stored snapshot's own
`salaryColumnAmount` (labeled with the snapshot status) is displayed
otherwise. -/
theorem C4_preview_formula (s : AppState) (debtorId : String)
    (o : MonthDataOutcomes) (u : GetUnpaidInstallmentsByMonthResponse)
    (f : GetMonthlyFreeAmountResponse)
    (hid : debtorId ≠ "") (hu : o.unpaid = Except.ok u) (hf : o.free = Except.ok f) :
    (loadDebtorMonthData s debtorId o).salaryPreviewAmount =
      f.monthlyFreeAmount / 2 - (u.installments.map (fun i => i.amount)).sum ∧
    ((loadDebtorMonthData s debtorId o).salarySnapshot = none →
        displayedSalaryFigure (loadDebtorMonthData s debtorId o) =
          (loadDebtorMonthData s debtorId o).salaryPreviewAmount ∧
        salaryFigureLabel (loadDebtorMonthData s debtorId o) = " (preview)") ∧
    (∀ snapshot, (loadDebtorMonthData s debtorId o).salarySnapshot = some snapshot →
        displayedSalaryFigure (loadDebtorMonthData s debtorId o) =
          snapshot.salaryColumnAmount ∧
        salaryFigureLabel (loadDebtorMonthData s debtorId o) =
          " (" ++ snapshot.status.text ++ ")") := by
  have hfold :
      u.installments.foldl (fun sum item => sum + item.amount) 0 =
        (u.installments.map (fun i => i.amount)).sum := by
    rw [foldl_add_eq_sum_map]
    exact zero_add _
  simp only [loadDebtorMonthData, if_neg hid, hu, hf]
  cases hsnap : o.snapshot with
  | ok snapshot =>
      simp [displayedSalaryFigure, salaryFigureLabel, hfold]
  | error e =>
      cases he : isApiNotFound e with
      | true => simp [he, displayedSalaryFigure, salaryFigureLabel, hfold]
      | false => simp [he, displayedSalaryFigure, salaryFigureLabel, hfold]

/-- C4 witness: the preview formula at a concrete load (free amount 1000,
one unpaid installment of 100, snapshot 404). -/
theorem C4_preview_formula_witness :
    (loadDebtorMonthData (initialState ("2026-10-12") 2026 10) ("d1")
        sampleMonthOutcomes404).salaryPreviewAmount =
      sampleFreeAmount.monthlyFreeAmount / 2 -
        (sampleUnpaidResult.installments.map (fun i => i.amount)).sum ∧
    ((loadDebtorMonthData (initialState ("2026-10-12") 2026 10) ("d1")
        sampleMonthOutcomes404).salarySnapshot = none →
        displayedSalaryFigure
            (loadDebtorMonthData (initialState ("2026-10-12") 2026 10) ("d1")
              sampleMonthOutcomes404) =
          (loadDebtorMonthData (initialState ("2026-10-12") 2026 10) ("d1")
              sampleMonthOutcomes404).salaryPreviewAmount ∧
        salaryFigureLabel
            (loadDebtorMonthData (initialState ("2026-10-12") 2026 10) ("d1")
              sampleMonthOutcomes404) = " (preview)") ∧
    (∀ snapshot,
        (loadDebtorMonthData (initialState ("2026-10-12") 2026 10) ("d1")
            sampleMonthOutcomes404).salarySnapshot = some snapshot →
        displayedSalaryFigure
            (loadDebtorMonthData (initialState ("2026-10-12") 2026 10) ("d1")
              sampleMonthOutcomes404) = snapshot.salaryColumnAmount ∧
        salaryFigureLabel
            (loadDebtorMonthData (initialState ("2026-10-12") 2026 10) ("d1")
              sampleMonthOutcomes404) = " (" ++ snapshot.status.text ++ ")") :=
  C4_preview_formula (initialState ("2026-10-12") 2026 10) ("d1")
    sampleMonthOutcomes404 sampleUnpaidResult sampleFreeAmount
    (by decide) rfl rfl

/-! ## C5 — scoped recurring-expense refresh -/

theorem recurringState_get_set_self (r : RecurringState) (t : ExpenseType)
    (l : List RecurringExpense) : (r.set t l).get t = l := by
  cases t <;> rfl

theorem recurringState_get_set_other (r : RecurringState) (t : ExpenseType)
    (l : List RecurringExpense) : (r.set t l).get (otherType t) = r.get (otherType t) := by
  cases t <;> rfl

theorem recurringTotals_get_set_self (r : RecurringTotals) (t : ExpenseType)
    (v : Rat) : (r.set t v).get t = v := by
  cases t <;> rfl

theorem recurringTotals_get_set_other (r : RecurringTotals) (t : ExpenseType)
    (v : Rat) : (r.set t v).get (otherType t) = r.get (otherType t) := by
  cases t <;> rfl

/-- Sample recurring fetch data used by concrete witnesses. -/
def sampleRecurringFetch : RecurringFetch :=
  ⟨⟨[⟨"r1", "Arriendo", 350000⟩], [⟨"r2", "Netflix", 12000⟩]⟩, ⟨350000, 12000⟩⟩

/-- C5: a recurring reload scoped to a known type `t` replaces exactly
partition `t`'s list and total with the fetched data and leaves the other
partition's list and total unchanged; an unscoped reload replaces both
partitions; and the successful create / update / delete handlers, which all
reload scoped to the mutated expense's type, leave the other partition
untouched (with the create handler additionally storing its own type's
fetched data). -/
theorem C5_scoped_recurring_refresh (s : AppState) (t : ExpenseType)
    (f : RecurringFetch) :
    ((reloadRecurring s (some t) f).recurringExpenses.get t = f.lists.get t ∧
     (reloadRecurring s (some t) f).recurringTotals.get t = f.totals.get t ∧
     (reloadRecurring s (some t) f).recurringExpenses.get (otherType t) =
       s.recurringExpenses.get (otherType t) ∧
     (reloadRecurring s (some t) f).recurringTotals.get (otherType t) =
       s.recurringTotals.get (otherType t)) ∧
    ((reloadRecurring s none f).recurringExpenses.get t = f.lists.get t ∧
     (reloadRecurring s none f).recurringTotals.get t = f.totals.get t) ∧
    ((handleCreateRecurringExpense s (.ok ()) (.ok f)).recurringExpenses.get
        (otherType s.recurringForm.type) =
       s.recurringExpenses.get (otherType s.recurringForm.type) ∧
     (handleCreateRecurringExpense s (.ok ()) (.ok f)).recurringTotals.get
        (otherType s.recurringForm.type) =
       s.recurringTotals.get (otherType s.recurringForm.type) ∧
     (handleCreateRecurringExpense s (.ok ()) (.ok f)).recurringExpenses.get
        s.recurringForm.type = f.lists.get s.recurringForm.type ∧
     (handleCreateRecurringExpense s (.ok ()) (.ok f)).recurringTotals.get
        s.recurringForm.type = f.totals.get s.recurringForm.type) ∧
    (∀ editing, s.recurringEditing = some editing →
        (handleUpdateRecurringExpense s (.ok ()) (.ok f)).recurringExpenses.get
            (otherType editing.type) =
          s.recurringExpenses.get (otherType editing.type) ∧
        (handleUpdateRecurringExpense s (.ok ()) (.ok f)).recurringTotals.get
            (otherType editing.type) =
          s.recurringTotals.get (otherType editing.type)) ∧
    (∀ target : RecurringDeleteTarget,
        (deleteRecurringExpenseByTarget s target (.ok ()) (.ok f)).recurringExpenses.get
            (otherType target.type) =
          s.recurringExpenses.get (otherType target.type) ∧
        (deleteRecurringExpenseByTarget s target (.ok ()) (.ok f)).recurringTotals.get
            (otherType target.type) =
          s.recurringTotals.get (otherType target.type)) := by
  refine ⟨⟨?_, ?_, ?_, ?_⟩, ⟨?_, ?_⟩, ⟨?_, ?_, ?_, ?_⟩, ?_, ?_⟩
  · exact recurringState_get_set_self _ t _
  · exact recurringTotals_get_set_self _ t _
  · exact recurringState_get_set_other _ t _
  · exact recurringTotals_get_set_other _ t _
  · cases t <;> rfl
  · cases t <;> rfl
  · exact recurringState_get_set_other _ _ _
  · exact recurringTotals_get_set_other _ _ _
  · exact recurringState_get_set_self _ _ _
  · exact recurringTotals_get_set_self _ _ _
  · intro editing hed
    simp only [handleUpdateRecurringExpense, hed]
    exact ⟨recurringState_get_set_other _ _ _, recurringTotals_get_set_other _ _ _⟩
  · intro target
    simp only [deleteRecurringExpenseByTarget]
    exact ⟨recurringState_get_set_other _ _ _, recurringTotals_get_set_other _ _ _⟩

/-- C5 witness: creating a FIXED expense and reloading scoped to FIXED
leaves the OPTIONAL partition of a concrete state untouched. -/
theorem C5_scoped_recurring_refresh_witness :
    (handleCreateRecurringExpense (initialState ("2026-10-12") 2026 10)
        (.ok ()) (.ok sampleRecurringFetch)).recurringExpenses.get
      (otherType (initialState ("2026-10-12") 2026 10).recurringForm.type) =
    (initialState ("2026-10-12") 2026 10).recurringExpenses.get
      (otherType (initialState ("2026-10-12") 2026 10).recurringForm.type) :=
  (C5_scoped_recurring_refresh (initialState ("2026-10-12") 2026 10)
    ExpenseType.FIXED sampleRecurringFetch).2.2.1.1

/-! ## C6 — refresh choreography after debt mutations -/

/-- The profile-tab state right before confirming the deletion of debt
`debt9`, whose installment the open monthly query view for debtor `d1` is
showing. -/
def deleteScenarioState : AppState :=
  { initialState ("2026-10-12") 2026 10 with
    activeTab := .debtorProfile
    debtors := [debtorAna]
    unpaidByMonthResult := some sampleUnpaidResult
    debtorMonthlyQuery := ⟨"d1", 10, 2026⟩
    pendingDebtDelete := some ⟨"debt9", "Laptop"⟩ }

/-- C6 counterexample: a monthly query view for debtor `d1` is open (the
profile tab is active and its result shows the installment of debt `debt9`
of that debtor), and the deletion of `debt9` succeeds, yet the open view is
not refreshed — it still holds the pre-deletion result, including the
deleted debt's installment. -/
theorem C6_delete_skips_open_view_counterexample :
    deleteScenarioState.activeTab = TabKey.debtorProfile ∧
    deleteScenarioState.unpaidByMonthResult = some sampleUnpaidResult ∧
    sampleUnpaidResult.debtorId = deleteScenarioState.debtorMonthlyQuery.debtorId ∧
    deleteScenarioState.pendingDebtDelete = some ⟨"debt9", "Laptop"⟩ ∧
    (sampleUnpaidResult.installments.map (fun i => i.debtId)) = ["debt9"] ∧
    (confirmDeleteDebt deleteScenarioState (.ok ()) (.ok [debtorAna])).unpaidByMonthResult
      = some sampleUnpaidResult :=
  ⟨rfl, rfl, rfl, rfl, rfl, rfl⟩

/-- C6 (amended): every successful debt creation, debt deletion, or
installment payment refreshes the debtor summary list; only the installment
payment additionally refreshes the open views — the monthly query view
(when the profile tab is active, re-querying exactly the currently selected
debtor) and the debt-detail modal (when one is open, reloading exactly its
debt) — while debt creation and deletion leave the monthly query result and
the detail modal contents untouched, and a payment with no open view
touches neither. -/
theorem C6_refresh_after_debt_mutations (s : AppState) (today : String)
    (ds : List Debtor) :
    ((handleCreateDebt s today (.ok ()) (.ok ds)).debtors = ds ∧
     (handleCreateDebt s today (.ok ()) (.ok ds)).unpaidByMonthResult =
       s.unpaidByMonthResult ∧
     (handleCreateDebt s today (.ok ()) (.ok ds)).debtDetail = s.debtDetail ∧
     (handleCreateDebt s today (.ok ()) (.ok ds)).debtDetailModal = s.debtDetailModal ∧
     (handleCreateDebt s today (.ok ()) (.ok ds)).salarySnapshot = s.salarySnapshot) ∧
    (∀ pending, s.pendingDebtDelete = some pending →
        (confirmDeleteDebt s (.ok ()) (.ok ds)).debtors = ds ∧
        (confirmDeleteDebt s (.ok ()) (.ok ds)).unpaidByMonthResult =
          s.unpaidByMonthResult ∧
        (confirmDeleteDebt s (.ok ()) (.ok ds)).debtDetail = s.debtDetail ∧
        (confirmDeleteDebt s (.ok ()) (.ok ds)).debtDetailModal = s.debtDetailModal) ∧
    (∀ (mo : MonthDataOutcomes) (u : GetUnpaidInstallmentsByMonthResponse)
        (f : GetMonthlyFreeAmountResponse) (snapshot : SalarySnapshot)
        (target : DebtDetailModalState) (detail : GetDebtDetailResponse),
        s.activeTab = TabKey.debtorProfile →
        s.debtorMonthlyQuery.debtorId ≠ "" →
        s.debtDetailModal = some target →
        mo.unpaid = Except.ok u → mo.free = Except.ok f →
        mo.snapshot = Except.ok snapshot →
        (handlePayInstallment s (.ok ()) (.ok ds) mo (.ok detail)).debtors = ds ∧
        (handlePayInstallment s (.ok ()) (.ok ds) mo (.ok detail)).unpaidByMonthResult =
          some u ∧
        (handlePayInstallment s (.ok ()) (.ok ds) mo (.ok detail)).debtDetail =
          some detail.debt) ∧
    (∀ (mo : MonthDataOutcomes)
        (dOut : Except ThrownError GetDebtDetailResponse),
        s.activeTab ≠ TabKey.debtorProfile →
        s.debtDetailModal = none →
        (handlePayInstallment s (.ok ()) (.ok ds) mo dOut).debtors = ds ∧
        (handlePayInstallment s (.ok ()) (.ok ds) mo dOut).unpaidByMonthResult =
          s.unpaidByMonthResult ∧
        (handlePayInstallment s (.ok ()) (.ok ds) mo dOut).debtDetail = s.debtDetail) := by
  refine ⟨⟨rfl, rfl, rfl, rfl, rfl⟩, ?_, ?_, ?_⟩
  · intro pending hpending
    simp only [confirmDeleteDebt, hpending]
    exact ⟨rfl, rfl, rfl, rfl⟩
  · intro mo u f snapshot target detail htab hq hmodal hu hf hsnap
    simp only [handlePayInstallment, htab, hmodal, loadDebtorMonthData, hq,
      hu, hf, hsnap, loadDebtDetail, reloadDebtors]
    simp [hq]
  · intro mo dOut htab hmodal
    simp only [handlePayInstallment, hmodal]
    simp only [if_neg htab]
    exact ⟨rfl, rfl, rfl⟩

/-- The profile-tab state with both the monthly query view for `d1` and the
detail modal for `debt9` open, right before paying an installment. -/
def payScenarioState : AppState :=
  { initialState ("2026-10-12") 2026 10 with
    activeTab := .debtorProfile
    debtors := [debtorAna]
    unpaidByMonthResult := some sampleUnpaidResult
    debtorMonthlyQuery := ⟨"d1", 10, 2026⟩
    debtDetailModal := some ⟨"d1", "Ana", "ana@x.com", "debt9"⟩ }

/-- Sample materialized snapshot for `d1`. -/
def sampleSnapshot : SalarySnapshot :=
  ⟨"s1", "d1", 2026, 10, 1000, 500, 100, 400, .PENDING, "2026-10-01", none⟩

/-- Sample debt detail for `debt9`. -/
def sampleDebt : Debt :=
  ⟨"debt9", "Laptop", 3000, "2026-09-01", false,
    [⟨"i1", 1, "2026-10-05", none, 1000⟩, ⟨"i2", 2, "2026-11-05", none, 1000⟩]⟩

/-- Sample debt-detail response for `debt9`. -/
def sampleDetailResponse : GetDebtDetailResponse :=
  ⟨"d1", "Ana", "ana@x.com", sampleDebt⟩

/-- Sample month-load outcomes where all three reads succeed. -/
def sampleMonthOutcomesOk : MonthDataOutcomes :=
  ⟨Except.ok sampleUnpaidResult, Except.ok sampleFreeAmount, Except.ok sampleSnapshot⟩

/-- C6 witness: a concrete successful payment with both views open reloads
the debtor list, the monthly query result and the detail modal's debt. -/
theorem C6_refresh_after_debt_mutations_witness :
    (handlePayInstallment payScenarioState (.ok ()) (.ok [debtorAna])
        sampleMonthOutcomesOk (.ok sampleDetailResponse)).debtors = [debtorAna] ∧
    (handlePayInstallment payScenarioState (.ok ()) (.ok [debtorAna])
        sampleMonthOutcomesOk (.ok sampleDetailResponse)).unpaidByMonthResult =
      some sampleUnpaidResult ∧
    (handlePayInstallment payScenarioState (.ok ()) (.ok [debtorAna])
        sampleMonthOutcomesOk (.ok sampleDetailResponse)).debtDetail =
      some sampleDetailResponse.debt :=
  (C6_refresh_after_debt_mutations payScenarioState ("2026-10-12") [debtorAna]).2.2.1
    sampleMonthOutcomesOk sampleUnpaidResult sampleFreeAmount sampleSnapshot
    ⟨"d1", "Ana", "ana@x.com", "debt9"⟩ sampleDetailResponse rfl (by decide)
    rfl rfl rfl rfl

/-! ## C7 — startup failure behaviour -/

/-- C7 counterexample: when a startup read fails, `loadInitialData`'s
`finally` still ends boot loading, so the main view is revealed — the view
does not remain in a persistent loading state as claimed (the stored error
notice is the only difference from a successful empty load). -/
theorem C7_startup_failure_reveals_view_counterexample :
    (loadInitialData (initialState ("2026-10-12") 2026 10)
        (.error (ThrownError.api ("boom") 500))
        (.error (ThrownError.api ("boom") 500))).bootLoading = false ∧
    mainViewRevealed (loadInitialData (initialState ("2026-10-12") 2026 10)
        (.error (ThrownError.api ("boom") 500))
        (.error (ThrownError.api ("boom") 500))) = true ∧
    (loadInitialData (initialState ("2026-10-12") 2026 10)
        (.error (ThrownError.api ("boom") 500))
        (.error (ThrownError.api ("boom") 500))).notice =
      some ⟨NoticeType.error, "boom"⟩ :=
  ⟨rfl, rfl, rfl⟩

/-- C7 (amended): if any of the concurrently issued startup reads fails,
exactly one error notice is stored, boot loading ends and the main view is
revealed with the pre-existing (empty) data; the application does not
crash, and the failed state differs from a successful load with no data
exactly by the stored error notice (a successful load leaves the notice
unchanged, hence absent from the initial state). -/
theorem C7_startup_failure_behaviour (s : AppState) (e : ThrownError)
    (freeO freeO2 : Except ThrownError GetMonthlyFreeAmountResponse) :
    (loadInitialData s (.error e) freeO).bootLoading = false ∧
    mainViewRevealed (loadInitialData s (.error e) freeO) = true ∧
    (loadInitialData s (.error e) freeO).notice = some (errorNotice e) ∧
    (loadInitialData s (.error e) freeO).debtors = s.debtors ∧
    (loadInitialData s (.error e) freeO).recurringExpenses = s.recurringExpenses ∧
    (∀ d, (loadInitialData s (.ok d) freeO2).notice = s.notice ∧
        (loadInitialData s (.ok d) freeO2).bootLoading = false) := by
  refine ⟨rfl, rfl, rfl, rfl, rfl, ?_⟩
  intro d
  cases freeO2 with
  | ok r => exact ⟨rfl, rfl⟩
  | error e2 => exact ⟨rfl, rfl⟩

/-! ## C8 — notice discipline of user-triggered actions -/

/-- The profile state with a selected debtor and a stale prior notice,
right before a PDF download. -/
def downloadScenarioState : AppState :=
  { initialState ("2026-10-12") 2026 10 with
    debtorMonthlyQuery := ⟨"d1", 10, 2026⟩
    notice := some ⟨.error, "previo"⟩ }

/-- C8 counterexample: a successful user-triggered PDF download clears the
prior notice but stores no success notice at all, contradicting the claim
that every user-triggered action stores a success notice on success. -/
theorem C8_download_no_success_notice_counterexample :
    downloadScenarioState.debtorMonthlyQuery.debtorId ≠ "" ∧
    downloadScenarioState.notice = some ⟨NoticeType.error, "previo"⟩ ∧
    (handleDownloadMonthlyPdf downloadScenarioState (.ok ())).notice = none :=
  ⟨by decide, rfl, rfl⟩

/-- C8 (amended): every user-triggered action that passes its guard first
clears any prior notice (the prior notice never influences the outcome),
then performs its calls;
on failure it stores as the single current notice the thrown error's
message when that message is a non-empty string and the generic fallback
text otherwise; on success the mutating actions store their success notice,
while the read-only PDF download stores no notice on success. -/
theorem C8_notice_discipline (s : AppState) (e : ThrownError) :
    (∀ n o l, handleCreateDebtor { s with notice := n } o l =
        handleCreateDebtor s o l) ∧
    (s.debtorMonthlyQuery.debtorId ≠ "" → ∀ n o,
        handleDownloadMonthlyPdf { s with notice := n } o =
          handleDownloadMonthlyPdf s o) ∧
    (∀ l, (handleCreateDebtor s (.error e) l).notice = some (errorNotice e)) ∧
    ((handleCreateDebtor s (.ok ()) (.error e)).notice = some (errorNotice e)) ∧
    (∀ ds, (handleCreateDebtor s (.ok ()) (.ok ds)).notice =
        some ⟨.success, "Deudor creado correctamente."⟩) ∧
    (∀ f, (handleCreateRecurringExpense s (.ok ()) (.ok f)).notice =
        some ⟨.success, "Gasto recurrente creado."⟩ ∧
      (handleCreateRecurringExpense s (.error e) (.ok f)).notice =
        some (errorNotice e)) ∧
    (∀ pending, s.pendingDebtDelete = some pending → ∀ ds,
        (confirmDeleteDebt s (.ok ()) (.ok ds)).notice =
          some ⟨.success, "Deuda eliminada correctamente."⟩ ∧
        (confirmDeleteDebt s (.error e) (.ok ds)).notice = some (errorNotice e)) ∧
    (∀ today ds, (handleCreateDebt s today (.ok ()) (.ok ds)).notice =
        some ⟨.success, "Deuda creada correctamente."⟩) ∧
    (s.debtorMonthlyQuery.debtorId ≠ "" → ∀ r,
        (handlePayMonthlySalary s (.ok r)).notice =
          some ⟨.success, "Sueldo mensual pagado y snapshot guardado."⟩ ∧
        (handlePayMonthlySalary s (.error e)).notice = some (errorNotice e)) ∧
    (s.debtorMonthlyQuery.debtorId ≠ "" →
        (handleDownloadMonthlyPdf s (.ok ())).notice = none ∧
        (handleDownloadMonthlyPdf s (.error e)).notice = some (errorNotice e)) ∧
    (∀ (debtorId : String) (o : MonthDataOutcomes), debtorId ≠ "" →
        o.unpaid = Except.error e →
        (loadDebtorMonthData s debtorId o).notice = some (errorNotice e)) ∧
    ((∀ m st, m ≠ "" → toErrorMessage (ThrownError.api m st) = m) ∧
      (∀ st, toErrorMessage (ThrownError.api ("") st) =
        "Ocurrió un error inesperado.") ∧
      toErrorMessage ThrownError.nonError = "Ocurrió un error inesperado.") := by
  refine ⟨?_, ?_, ?_, rfl, ?_, ?_, ?_, ?_, ?_, ?_, ?_, ?_, ?_, rfl⟩
  · intro n o l
    cases o with
    | error e2 => rfl
    | ok v => cases l <;> rfl
  · intro hq n o
    simp only [handleDownloadMonthlyPdf, if_neg hq]
  · intro l
    rfl
  · intro ds
    rfl
  · intro f
    exact ⟨rfl, rfl⟩
  · intro pending hpending ds
    simp only [confirmDeleteDebt, hpending]
    exact ⟨rfl, trivial⟩
  · intro today ds
    rfl
  · intro hq r
    simp only [handlePayMonthlySalary, if_neg hq]
    exact ⟨trivial, trivial⟩
  · intro hq
    simp only [handleDownloadMonthlyPdf, if_neg hq]
    exact ⟨trivial, trivial⟩
  · intro debtorId o hid hunp
    simp only [loadDebtorMonthData, if_neg hid, hunp]
  · intro m st hm
    simp [toErrorMessage, hm]
  · intro st
    rfl

/-- C8 witness: the discipline applied to the concrete download scenario —
success stores no notice, failure stores the thrown message. -/
theorem C8_notice_discipline_witness :
    (handleDownloadMonthlyPdf downloadScenarioState (.ok ())).notice = none ∧
    (handleDownloadMonthlyPdf downloadScenarioState
        (.error (ThrownError.api ("falló") 500))).notice =
      some (errorNotice (ThrownError.api ("falló") 500)) :=
  (C8_notice_discipline downloadScenarioState
    (ThrownError.api ("falló") 500)).2.2.2.2.2.2.2.2.2.1 (by decide)

/-! ## C9 — amount-input parsing and formatting -/

theorem foldl_digits_eq_ofDigits (l : List Char) (a : Nat) :
    l.foldl (fun acc c => 10 * acc + digitVal c) a =
      a * 10 ^ l.length + Nat.ofDigits 10 ((l.map digitVal).reverse) := by
  induction l generalizing a with
  | nil => simp
  | cons c cs ih =>
      rw [List.foldl_cons, ih]
      simp [Nat.ofDigits_append, Nat.ofDigits_singleton, pow_succ]
      ring

theorem digitVal_ofNat_digit (d : Nat) (h : d < 10) :
    digitVal (Char.ofNat (d + 48)) = d := by
  interval_cases d <;> decide

theorem isDigit_ofNat_digit (d : Nat) (h : d < 10) :
    (Char.ofNat (d + 48)).isDigit = true := by
  interval_cases d <;> decide

theorem natDecimalRepr_map_digitVal (n : Nat) :
    (((Nat.digits 10 n).reverse.map (fun d => Char.ofNat (d + 48))).map digitVal)
      = (Nat.digits 10 n).reverse := by
  rw [List.map_map]
  have hc : ∀ d ∈ (Nat.digits 10 n).reverse,
      (digitVal ∘ fun d => Char.ofNat (d + 48)) d = id d := by
    intro d hd
    exact digitVal_ofNat_digit d (Nat.digits_lt_base (by norm_num) (List.mem_reverse.mp hd))
  rw [List.map_congr_left hc, List.map_id]

theorem numberOfDigitString_eq_ofDigits (s : String) :
    numberOfDigitString s = Nat.ofDigits 10 ((s.data.map digitVal).reverse) := by
  unfold numberOfDigitString
  rw [foldl_digits_eq_ofDigits]
  simp

theorem numberOfDigitString_natDecimalRepr (n : Nat) :
    numberOfDigitString (natDecimalRepr n) = n := by
  rw [numberOfDigitString_eq_ofDigits]
  unfold natDecimalRepr
  by_cases h : n = 0
  · rw [if_pos h]
    subst h
    decide
  · rw [if_neg h]
    show Nat.ofDigits 10
        ((((Nat.digits 10 n).reverse.map (fun d => Char.ofNat (d + 48))).map
          digitVal).reverse) = n
    rw [natDecimalRepr_map_digitVal n, List.reverse_reverse]
    exact Nat.ofDigits_digits 10 n

theorem groupThousandsRev_filter_isDigit (l : List Char) :
    (groupThousandsRev l).filter Char.isDigit = l.filter Char.isDigit := by
  have hdot : ('.' : Char).isDigit = false := by decide
  induction l using groupThousandsRev.induct <;>
    simp_all [groupThousandsRev, List.filter_cons, hdot]

theorem natDecimalRepr_filter_isDigit (n : Nat) :
    (natDecimalRepr n).data.filter Char.isDigit = (natDecimalRepr n).data := by
  rw [List.filter_eq_self]
  intro c hc
  unfold natDecimalRepr at hc
  by_cases h : n = 0
  · rw [if_pos h] at hc
    have h0 : ("0" : String).data = ['0'] := rfl
    rw [h0] at hc
    simp only [List.mem_singleton] at hc
    subst hc
    decide
  · rw [if_neg h] at hc
    have hc2 : c ∈ (Nat.digits 10 n).reverse.map (fun d => Char.ofNat (d + 48)) := hc
    obtain ⟨d, hd, rfl⟩ := List.mem_map.mp hc2
    exact isDigit_ofNat_digit d
      (Nat.digits_lt_base (by norm_num) (List.mem_reverse.mp hd))

theorem parseAmountInput_eq (s : String) :
    parseAmountInput s = numberOfDigitString (filterDigits s) := by
  unfold parseAmountInput
  by_cases h : filterDigits s = ""
  · rw [if_pos h, h]
    rfl
  · rw [if_neg h]

theorem filterDigits_formatAmountInput (s : String) (h : ¬ filterDigits s = "") :
    filterDigits (formatAmountInput s) =
      natDecimalRepr (numberOfDigitString (filterDigits s)) := by
  simp only [formatAmountInput, if_neg h]
  unfold filterDigits
  show String.mk
      (((groupThousandsRev
        (natDecimalRepr (numberOfDigitString (filterDigits s))).data.reverse).reverse).filter
        Char.isDigit) = _
  rw [List.filter_reverse, groupThousandsRev_filter_isDigit, List.filter_reverse,
    natDecimalRepr_filter_isDigit, List.reverse_reverse]
  rfl

/-- C9: `parseAmountInput` returns exactly the nonnegative integer formed
by the decimal digits of the input taken in order (0 when there are none),
and parsing is invariant under the input formatter:
`parseAmountInput (formatAmountInput s) = parseAmountInput s` for every
string. (JavaScript `Number` is modelled exactly; the grouping separator
inserted by the `es-CL` formatter is the non-digit `.`, which parsing
strips again.) -/
theorem C9_parse_format_invariance (s : String) :
    parseAmountInput s =
      Nat.ofDigits 10 (((s.data.filter Char.isDigit).map digitVal).reverse) ∧
    parseAmountInput (formatAmountInput s) = parseAmountInput s := by
  constructor
  · rw [parseAmountInput_eq, numberOfDigitString_eq_ofDigits]
    rfl
  · rw [parseAmountInput_eq, parseAmountInput_eq]
    by_cases h : filterDigits s = ""
    · have hfmt : formatAmountInput s = "" := by
        simp only [formatAmountInput]
        rw [if_pos h]
      rw [hfmt, h]
      rfl
    · rw [filterDigits_formatAmountInput s h, numberOfDigitString_natDecimalRepr]

/-- C9 witness: concrete evaluations — `parseAmountInput " 1a2.3 " = 123`
and formatting `1234567` then re-parsing gives back `1234567`. -/
theorem C9_parse_format_invariance_witness :
    parseAmountInput (" 1a2.3 ") =
      Nat.ofDigits 10 ((((" 1a2.3 " : String).data.filter Char.isDigit).map
        digitVal).reverse) ∧
    parseAmountInput (formatAmountInput ("1234567")) = parseAmountInput ("1234567") :=
  ⟨(C9_parse_format_invariance (" 1a2.3 ")).1,
    (C9_parse_format_invariance ("1234567")).2⟩

/-! ## C10 — debt-detail pagination -/

theorem ceil_div_five (n : Nat) : ⌈(n : Rat) / 5⌉₊ = (n + 5 - 1) / 5 := by
  have h5 : (0 : Rat) < 5 := by norm_num
  apply le_antisymm
  · rw [Nat.ceil_le, div_le_iff₀ h5]
    have hn : (n : Nat) ≤ ((n + 5 - 1) / 5) * 5 := by omega
    exact_mod_cast hn
  · have hx : (n : Rat) / 5 ≤ (⌈(n : Rat) / 5⌉₊ : Rat) := Nat.le_ceil _
    rw [div_le_iff₀ h5] at hx
    have hn : n ≤ ⌈(n : Rat) / 5⌉₊ * 5 := by exact_mod_cast hx
    omega

theorem one_le_debtDetailTotalPages (d : Option Debt) : 1 ≤ debtDetailTotalPages d := by
  cases d with
  | none => exact le_refl 1
  | some debt => exact le_max_left 1 _

/-- C10: in the debt-detail modal, the page count of a loaded debt with `n`
installments is `max 1 ⌈n / 5⌉`; the visible installments are exactly the
slice of the installment list from `(page-1)*5` up to (excluding) `page*5`;
and the current page always stays within `1..pageCount`: opening a detail
resets the page to 1 (in bounds), and the previous/next actions preserve
the bounds by clamping to that range. -/
theorem C10_debt_detail_pagination (s : AppState) (a : DebtDetailAction)
    (debt : Debt) (page : Nat) (target : DebtDetailModalState)
    (outcome : Except ThrownError GetDebtDetailResponse) :
    (debtDetailTotalPages (some debt) =
      max 1 ⌈(debt.installments.length : Rat) / 5⌉₊) ∧
    (1 ≤ page →
      ∀ i : Nat, (debtDetailVisibleInstallments (some debt) page)[i]? =
        if i < 5 then debt.installments[(page - 1) * 5 + i]? else none) ∧
    (debtDetailPageInBounds s → debtDetailPageInBounds (debtDetailStep s a)) ∧
    ((debtDetailStep s (.openDetail target outcome)).debtDetailPage = 1 ∧
      debtDetailPageInBounds (debtDetailStep s (.openDetail target outcome))) := by
  refine ⟨?_, ?_, ?_, ?_⟩
  · simp only [debtDetailTotalPages, DEBT_DETAIL_PAGE_SIZE, ceil_div_five]
  · intro hpage i
    simp only [debtDetailVisibleInstallments, List.getElem?_take,
      List.getElem?_drop, DEBT_DETAIL_PAGE_SIZE]
    rw [show page * 5 - (page - 1) * 5 = 5 from by omega]
  · intro hinv
    cases a with
    | openDetail t o =>
        cases o with
        | ok r => exact ⟨le_refl 1, one_le_debtDetailTotalPages _⟩
        | error e2 => exact ⟨le_refl 1, one_le_debtDetailTotalPages _⟩
    | prevPage =>
        obtain ⟨h1, h2⟩ := hinv
        simp only [debtDetailPageInBounds, debtDetailStep, debtDetailPrevPage] at *
        omega
    | nextPage =>
        obtain ⟨h1, h2⟩ := hinv
        simp only [debtDetailPageInBounds, debtDetailStep, debtDetailNextPage] at *
        omega
  · refine ⟨?_, ?_⟩
    · cases outcome with
      | ok r => rfl
      | error e2 => rfl
    · cases outcome with
      | ok r => exact ⟨le_refl 1, one_le_debtDetailTotalPages _⟩
      | error e2 => exact ⟨le_refl 1, one_le_debtDetailTotalPages _⟩

/-- C10 witness: the slice characterization applied on page 2 of the sample
debt, and the page reset on a concrete open action. -/
theorem C10_debt_detail_pagination_witness :
    ((1 : Nat) ≤ 2) ∧
    (debtDetailVisibleInstallments (some sampleDebt) 2)[0]? =
      (if 0 < 5 then sampleDebt.installments[(2 - 1) * 5 + 0]? else none) ∧
    (debtDetailStep payScenarioState
        (.openDetail ⟨"d1", "Ana", "ana@x.com", "debt9"⟩
          (.ok sampleDetailResponse))).debtDetailPage = 1 :=
  ⟨by decide,
    (C10_debt_detail_pagination payScenarioState DebtDetailAction.prevPage sampleDebt 2
      ⟨"d1", "Ana", "ana@x.com", "debt9"⟩ (.ok sampleDetailResponse)).2.1 (by decide) 0,
    (C10_debt_detail_pagination payScenarioState
      (.openDetail ⟨"d1", "Ana", "ana@x.com", "debt9"⟩ (.ok sampleDetailResponse))
      sampleDebt 2 ⟨"d1", "Ana", "ana@x.com", "debt9"⟩ (.ok sampleDetailResponse)).2.2.2.1⟩

end BalanceHub
